import Mathlib

/-
Verification of src/vs/workbench/contrib/chat/browser/attachments/promptInstructionsAttachment.ts:
the instructions-file discovery routine (PromptInstructionsFileReader) and the
attachment widget state machine (PromptInstructionsAttachmentWidget).

URIs are modelled as plain strings; URI.joinPath is string concatenation with a
separating slash. The file service (IFileService.resolveAll) is modelled as a
pure function from the batch of resolve requests to the batch of results, and
the embedding of listFiles additionally returns the log of resolveAll batch
calls it issued, so that claims about invocation counts are statable.
-/

namespace PromptAttach

/-- Resource identifiers (vscode URIs) are modelled as strings. -/
abbrev URI := String

/-- Models URI.joinPath from the vscode base library: joins a base location
with a relative subpath. -/
def uriJoinPath (base rel : String) : String :=
  base ++ "/" ++ rel

/-- The workbench state enum from IWorkspaceContextService. -/
inductive WorkbenchState where
  | EMPTY
  | FOLDER
  | WORKSPACE
deriving DecidableEq, Repr

/-- A workspace folder: only its base location is read by the code. -/
structure WorkspaceFolder where
  uri : URI
deriving DecidableEq, Repr

/-- The workspace description: an ordered sequence of folders. -/
structure Workspace where
  folders : List WorkspaceFolder
deriving DecidableEq, Repr

/-- The slice of IWorkspaceContextService the reader consumes:
getWorkbenchState() and getWorkspace(). -/
structure IWorkspaceContextService where
  state : WorkbenchState
  workspace : Workspace
deriving DecidableEq, Repr

/-- The constant INSTRUCTIONS_FOLDER_NAME from the source. -/
def INSTRUCTIONS_FOLDER_NAME : String := ".copilot/instructions"

/-- The constant INSTRUCTIONS_FILE_EXTENSION from the source. -/
def INSTRUCTIONS_FILE_EXTENSION : String := ".md"

/-- A directory child as read by the code: name, resource, isDirectory.
The code reads no deeper fields of children. -/
structure IFileStatChild where
  name : String
  resource : URI
  isDirectory : Bool
deriving DecidableEq, Repr

/-- The slice of IFileStat the code reads: the optional children listing. -/
structure IFileStat where
  children : Option (List IFileStatChild)
deriving DecidableEq, Repr

/-- One entry in the resolveAll batch request: { resource: location }. -/
structure ResolveRequest where
  resource : URI
deriving DecidableEq, Repr

/-- One entry in the resolveAll batch result: { stat?, success }. -/
structure ResolveResult where
  stat : Option IFileStat
  success : Bool
deriving DecidableEq, Repr

/-- The storage collaborator: resolveAll as a pure function from the request
batch to the result batch. -/
abbrev FileService := List ResolveRequest → List ResolveResult

/-- Models the javascript String.prototype.endsWith: a case-sensitive check
that the suffix character sequence ends the string. -/
def strEndsWith (s suffix : String) : Bool :=
  suffix.data.isSuffixOf s.data

/-- The body of the inner loop of findInstructionsFiles: a child is skipped
when it is a directory, skipped when its name does not end with
INSTRUCTIONS_FILE_EXTENSION, and otherwise its resource is pushed. -/
def keepChild (child : IFileStatChild) : Option URI :=
  if child.isDirectory then
    none
  else if !(strEndsWith child.name INSTRUCTIONS_FILE_EXTENSION) then
    none
  else
    some child.resource

/-- The body of the outer loop of findInstructionsFiles: a result with
success = false, or with no stat, or with no children listing, contributes
nothing; otherwise its children are filtered by keepChild. -/
def filesOfResult (result : ResolveResult) : List URI :=
  if !result.success then
    []
  else
    match result.stat with
    | none => []
    | some stat =>
      match stat.children with
      | none => []
      | some children => children.filterMap keepChild

/-- The whole loop of findInstructionsFiles over the resolved batch. -/
def collectFiles (results : List ResolveResult) : List URI :=
  results.flatMap filesOfResult

/-- PromptInstructionsFileReader.findInstructionsFiles: maps the locations to
resolve requests, issues one resolveAll batch call, and filters the results.
The second component is the log of resolveAll batch calls issued. -/
def findInstructionsFiles (fileService : FileService) (locations : List URI) :
    List URI × List (List ResolveRequest) :=
  let requests := locations.map (fun location => ResolveRequest.mk location)
  let results := fileService requests
  (collectFiles results, [requests])

/-- PromptInstructionsFileReader.getSourceLocations: empty list for the EMPTY
workbench state, otherwise one candidate location per workspace folder, in
folder order, each equal to the folder uri joined with
INSTRUCTIONS_FOLDER_NAME. -/
def getSourceLocations (ws : IWorkspaceContextService) : List URI :=
  if ws.state = WorkbenchState.EMPTY then
    []
  else
    ws.workspace.folders.map (fun folder =>
      uriJoinPath folder.uri INSTRUCTIONS_FOLDER_NAME)

/-- PromptInstructionsFileReader.listFiles: computes the source locations and
delegates to findInstructionsFiles. The second component is the log of
resolveAll batch calls issued. -/
def listFiles (fileService : FileService) (ws : IWorkspaceContextService) :
    List URI × List (List ResolveRequest) :=
  findInstructionsFiles fileService (getSourceLocations ws)

/-- The promptInstructions association of the attachment model: the primary
document uri and its valid file reference uris. -/
structure ChatPromptAttachment where
  uri : URI
  validFileReferenceUris : List URI
deriving DecidableEq, Repr

/-- The slice of ChatAttachmentModel the widget reads: the optional
promptInstructions association. -/
structure ChatAttachmentModel where
  promptInstructions : Option ChatPromptAttachment
deriving DecidableEq, Repr

/-- The mutable state of PromptInstructionsAttachmentWidget: the _enabled
flag, the cached _uri, and whether the widget has been disposed. -/
structure Widget where
  enabled : Bool
  uri : Option URI
  disposed : Bool
deriving DecidableEq, Repr

/-- The constructor initial state: _enabled = true, _uri = undefined,
not disposed. -/
def initWidget : Widget :=
  { enabled := true, uri := none, disposed := false }

/-- Observable signals the widget emits: a fire() of the
_onEnabledStateChange emitter, and a call of the render() method. -/
inductive WidgetEvent where
  | enabledStateChange
  | render
deriving DecidableEq, Repr

/-- The visible getter: true iff _uri is set (!!this._uri). -/
def visible (w : Widget) : Bool :=
  w.uri.isSome

/-- The toggle() method: negates _enabled, fires the enabled-state-change
emitter, calls render(), and returns this (modelled as the updated widget
state). The _onEnabledStateChange emitter is constructed without _register,
so it is not released on disposal and fire() emits even on a disposed
widget. -/
def toggle (w : Widget) : Widget × List WidgetEvent :=
  ({ w with enabled := !w.enabled },
   [WidgetEvent.enabledStateChange, WidgetEvent.render])

/-- The references getter: empty when the attachment model has no
promptInstructions association, otherwise the valid file reference uris
followed by the primary document uri. Reads the model, not the cached
_uri. -/
def references (model : ChatAttachmentModel) : List URI :=
  match model.promptInstructions with
  | none => []
  | some attachment => attachment.validFileReferenceUris ++ [attachment.uri]

/-- Modelled from the spec: the constructor registers the
onDidChangeContext subscription with _register, and disposal releases it, so
on a disposed widget an upstream change notification no longer runs the
listener (no write to _uri, no render). On a live widget the listener sets
_uri to the current promptInstructions uri (possibly undefined) and calls
render(). The Emitter and Disposable base classes are not part of the
source file. -/
def onDidChangeContext (model : ChatAttachmentModel) (w : Widget) :
    Widget × List WidgetEvent :=
  if w.disposed then
    (w, [])
  else
    ({ w with uri := (model.promptInstructions.map (fun a => a.uri)) },
     [WidgetEvent.render])

/-- Modelled from the spec: disposal releases the registered subscription
and render-scoped resources and is idempotent; it does not touch _enabled or
_uri and emits nothing. -/
def dispose (w : Widget) : Widget :=
  { w with disposed := true }

/-! Concrete fixtures used by counterexamples and witnesses. -/

/-- Fixture: a file service that reports failure for every request, one
result per request entry. -/
def fs0 : FileService := fun requests =>
  requests.map (fun _ => ResolveResult.mk none false)

/-- Fixture: a workspace in the EMPTY workbench state. -/
def ws0 : IWorkspaceContextService :=
  { state := WorkbenchState.EMPTY, workspace := { folders := [] } }

/-- Fixture: a workspace with two folders F1 and F2. -/
def ws2 : IWorkspaceContextService :=
  { state := WorkbenchState.WORKSPACE,
    workspace := { folders := [⟨"file:///F1"⟩, ⟨"file:///F2"⟩] } }

/-- Fixture: a workspace with the single folder W. -/
def wsW : IWorkspaceContextService :=
  { state := WorkbenchState.FOLDER,
    workspace := { folders := [⟨"file:///W"⟩] } }

/-- Fixture: the instructions directory of folder W lists a file named
exactly ".md", a file "foo.MD", a file "notes.txt", a directory "sub.md"
and a file "foo.md". -/
def fsW : FileService := fun requests =>
  requests.map (fun _ =>
    ResolveResult.mk
      (some ⟨some
        [⟨".md", "file:///W/.copilot/instructions/.md", false⟩,
         ⟨"foo.MD", "file:///W/.copilot/instructions/foo.MD", false⟩,
         ⟨"notes.txt", "file:///W/.copilot/instructions/notes.txt", false⟩,
         ⟨"sub.md", "file:///W/.copilot/instructions/sub.md", true⟩,
         ⟨"foo.md", "file:///W/.copilot/instructions/foo.md", false⟩]⟩)
      true)

/-- Fixture: the instructions directory of F1 lists a.md and b.txt while
the instructions directory of F2 fails to resolve. -/
def fsC8 : FileService := fun requests =>
  requests.map (fun request =>
    if request.resource = "file:///F1/.copilot/instructions" then
      ResolveResult.mk
        (some ⟨some
          [⟨"a.md", "file:///F1/.copilot/instructions/a.md", false⟩,
           ⟨"b.txt", "file:///F1/.copilot/instructions/b.txt", false⟩]⟩)
        true
    else
      ResolveResult.mk none false)

/-- Fixture: an attachment model with no promptInstructions association. -/
def mNone : ChatAttachmentModel := { promptInstructions := none }

/-- Fixture: an attachment model whose promptInstructions association has
primary document d.md and valid references r1.md and r2.md. -/
def mSome : ChatAttachmentModel :=
  { promptInstructions := some ⟨"file:///d.md", ["file:///r1.md", "file:///r2.md"]⟩ }

/-! Helper lemmas. -/

/-- The inner loop keeps exactly the non-directory children whose name ends
with the fixed extension, in order, mapped to their resources. -/
theorem filterMap_keepChild (children : List IFileStatChild) :
    children.filterMap keepChild =
      (children.filter (fun c =>
        !c.isDirectory && strEndsWith c.name INSTRUCTIONS_FILE_EXTENSION)).map
        (fun c => c.resource) := by
  induction children with
  | nil => rfl
  | cons c cs ih =>
    by_cases hd : c.isDirectory = true <;>
      by_cases he : strEndsWith c.name INSTRUCTIONS_FILE_EXTENSION = true <;>
        simp [keepChild, hd, he, List.filterMap_cons, List.filter_cons, ih]

/-- A result that reports failure, or success with no stat or no children
listing, contributes no files. -/
theorem filesOfResult_eq_nil (r : ResolveResult)
    (h : r.success = false ∨ r.stat = none ∨
      ∀ stat, r.stat = some stat → stat.children = none) :
    filesOfResult r = [] := by
  rcases h with h | h | h
  · simp [filesOfResult, h]
  · cases hs : r.success <;> simp [filesOfResult, h, hs]
  · cases hst : r.stat with
    | none => cases hs : r.success <;> simp [filesOfResult, hst, hs]
    | some stat =>
      cases hs : r.success <;> simp [filesOfResult, hst, hs, h stat hst]

/-! Claim theorems. -/

/-- C1 counterexample: with the workbench state EMPTY, listFiles does return
an empty sequence, but the resolveAll operation of the storage collaborator
IS invoked: the call log holds exactly one batch call (with an empty request
list), so the log is not empty, contradicting the claim that resolveAll is
not invoked at all. -/
theorem C1_counterexample :
    ws0.state = WorkbenchState.EMPTY ∧
    (listFiles fs0 ws0).1 = [] ∧
    (listFiles fs0 ws0).2 = [[]] ∧
    (listFiles fs0 ws0).2 ≠ [] :=
  ⟨rfl, rfl, rfl, by decide⟩

/-- C1 amended: for every workspace whose workbench state is EMPTY, and every
file service that returns no results for an empty request batch, listFiles
returns the empty sequence, and the single resolveAll batch call it issues
carries zero candidate locations (so no per-location I/O is requested). -/
theorem C1_empty_workspace (fs : FileService) (ws : IWorkspaceContextService)
    (hws : ws.state = WorkbenchState.EMPTY) (hfs : fs [] = []) :
    (listFiles fs ws).1 = [] ∧ (listFiles fs ws).2 = [[]] := by
  simp [listFiles, findInstructionsFiles, getSourceLocations, collectFiles, hws, hfs]

/-- C1 witness: the amended statement evaluated on the concrete empty
workspace and the concrete failing file service. -/
theorem C1_empty_workspace_witness :
    ws0.state = WorkbenchState.EMPTY ∧ fs0 [] = [] ∧
    ((listFiles fs0 ws0).1 = [] ∧ (listFiles fs0 ws0).2 = [[]]) :=
  ⟨rfl, rfl, C1_empty_workspace fs0 ws0 rfl rfl⟩

/-- C2 counterexample: after disposing the widget, calling toggle still
fires an enabled-state-change notification, because the
_onEnabledStateChange emitter is constructed without _register and is
therefore not released on disposal; this contradicts the claim that no
enabled-state-change notification is emitted after disposal. -/
theorem C2_counterexample :
    (dispose initWidget).disposed = true ∧
    (toggle (dispose initWidget)).2.count WidgetEvent.enabledStateChange = 1 :=
  ⟨rfl, rfl⟩

/-- C2 amended: after the widget is disposed, an upstream model change
notification does not run the listener (no re-render, no state change), and
disposal is idempotent; however a toggle call after disposal still fires one
enabled-state-change notification, since the emitter is not registered for
disposal. -/
theorem C2_dispose (w : Widget) (m : ChatAttachmentModel) :
    onDidChangeContext m (dispose w) = (dispose w, []) ∧
    dispose (dispose w) = dispose w ∧
    (toggle (dispose w)).2.count WidgetEvent.enabledStateChange = 1 :=
  ⟨rfl, rfl, rfl⟩

/-- C2 witness: the amended statement evaluated on the initial widget and
the detached model. -/
theorem C2_dispose_witness :
    onDidChangeContext mNone (dispose initWidget) = (dispose initWidget, []) ∧
    dispose (dispose initWidget) = dispose initWidget ∧
    (toggle (dispose initWidget)).2.count WidgetEvent.enabledStateChange = 1 :=
  C2_dispose initWidget mNone

/-- C3: in every resolved directory listing, the kept entries are exactly
the non-directory children whose name ends with the fixed extension .md
(case-sensitive), in order, mapped to their resources; concretely, a
directory listing a file named exactly .md, a file foo.MD, a file
notes.txt, a directory sub.md and a file foo.md contributes exactly the
resources of .md and foo.md. -/
theorem C3_md_filter (r : ResolveResult) (stat : IFileStat)
    (children : List IFileStatChild) (h1 : r.success = true)
    (h2 : r.stat = some stat) (h3 : stat.children = some children) :
    filesOfResult r =
      (children.filter (fun c =>
        !c.isDirectory && strEndsWith c.name INSTRUCTIONS_FILE_EXTENSION)).map
        (fun c => c.resource) ∧
    (listFiles fsW wsW).1 =
      ["file:///W/.copilot/instructions/.md",
       "file:///W/.copilot/instructions/foo.md"] := by
  constructor
  · simp [filesOfResult, h1, h2, h3, filterMap_keepChild]
  · decide

/-- C3 fixture: a two-child listing used by the witness. -/
def childrenC3 : List IFileStatChild :=
  [⟨"x.md", "file:///x.md", false⟩, ⟨"y.txt", "file:///y.txt", false⟩]

/-- C3 fixture: the stat wrapping childrenC3. -/
def statC3 : IFileStat := ⟨some childrenC3⟩

/-- C3 fixture: a successful resolve result carrying statC3. -/
def rC3 : ResolveResult := ⟨some statC3, true⟩

/-- C3 witness: the filter equation evaluated on a concrete successful
resolve result. -/
theorem C3_md_filter_witness :
    rC3.success = true ∧ rC3.stat = some statC3 ∧
    statC3.children = some childrenC3 ∧
    (filesOfResult rC3 =
      (childrenC3.filter (fun c =>
        !c.isDirectory && strEndsWith c.name INSTRUCTIONS_FILE_EXTENSION)).map
        (fun c => c.resource) ∧
     (listFiles fsW wsW).1 =
       ["file:///W/.copilot/instructions/.md",
        "file:///W/.copilot/instructions/foo.md"]) :=
  ⟨rfl, rfl, rfl, C3_md_filter rC3 statC3 childrenC3 rfl rfl rfl⟩

/-- C4: references is empty when the attachment model has no
promptInstructions association, and otherwise equals the valid file
reference uris in order followed by the primary document uri as the last
element. -/
theorem C4_references_shape (m : ChatAttachmentModel) :
    (m.promptInstructions = none → references m = []) ∧
    (∀ a : ChatPromptAttachment, m.promptInstructions = some a →
      references m = a.validFileReferenceUris ++ [a.uri]) := by
  constructor
  · intro h
    simp [references, h]
  · intro a h
    simp [references, h]

/-- C4 witness: references evaluated on a model without and a model with a
promptInstructions association. -/
theorem C4_references_shape_witness :
    references mNone = [] ∧
    references mSome = ["file:///r1.md", "file:///r2.md", "file:///d.md"] := by
  refine ⟨(C4_references_shape mNone).1 rfl, ?_⟩
  have h := (C4_references_shape mSome).2
    ⟨"file:///d.md", ["file:///r1.md", "file:///r2.md"]⟩ rfl
  simpa using h

/-- C5: in every widget state, visible is true iff the cached uri is set;
after a change notification on a live widget whose model carries a
promptInstructions association, visible is true, and after a subsequent
notification whose model carries none, visible is false. -/
theorem C5_visible_iff_uri (w : Widget) (m m2 : ChatAttachmentModel)
    (a : ChatPromptAttachment) (hd : w.disposed = false)
    (hm : m.promptInstructions = some a) (hm2 : m2.promptInstructions = none) :
    visible w = w.uri.isSome ∧
    visible (onDidChangeContext m w).1 = true ∧
    visible (onDidChangeContext m2 (onDidChangeContext m w).1).1 = false := by
  refine ⟨rfl, ?_, ?_⟩
  · simp [onDidChangeContext, visible, hd, hm]
  · simp [onDidChangeContext, visible, hd, hm, hm2]

/-- C5 witness: the round trip evaluated on the initial widget with the
concrete attached and detached models. -/
theorem C5_visible_iff_uri_witness :
    initWidget.disposed = false ∧
    mSome.promptInstructions =
      some ⟨"file:///d.md", ["file:///r1.md", "file:///r2.md"]⟩ ∧
    mNone.promptInstructions = none ∧
    (visible initWidget = initWidget.uri.isSome ∧
     visible (onDidChangeContext mSome initWidget).1 = true ∧
     visible (onDidChangeContext mNone
       (onDidChangeContext mSome initWidget).1).1 = false) :=
  ⟨rfl, rfl, rfl,
   C5_visible_iff_uri initWidget mSome mNone
     ⟨"file:///d.md", ["file:///r1.md", "file:///r2.md"]⟩ rfl rfl rfl⟩

/-- C6: toggling twice restores the whole original widget state (in
particular the original enabled value), each call fires exactly one
enabled-state-change notification (two across both calls), and each call
returns the widget itself (modelled as the updated widget state). -/
theorem C6_toggle_twice (w : Widget) :
    (toggle w).1 = { w with enabled := !w.enabled } ∧
    (toggle (toggle w).1).1 = w ∧
    (toggle w).2.count WidgetEvent.enabledStateChange = 1 ∧
    (toggle (toggle w).1).2.count WidgetEvent.enabledStateChange = 1 ∧
    ((toggle w).2 ++ (toggle (toggle w).1).2).count
      WidgetEvent.enabledStateChange = 2 := by
  refine ⟨rfl, ?_, rfl, rfl, rfl⟩
  simp [toggle]

/-- C6 witness: the toggle round trip evaluated on the initial widget. -/
theorem C6_toggle_twice_witness :
    (toggle initWidget).1 = { initWidget with enabled := !initWidget.enabled } ∧
    (toggle (toggle initWidget).1).1 = initWidget ∧
    (toggle initWidget).2.count WidgetEvent.enabledStateChange = 1 ∧
    (toggle (toggle initWidget).1).2.count WidgetEvent.enabledStateChange = 1 ∧
    ((toggle initWidget).2 ++ (toggle (toggle initWidget).1).2).count
      WidgetEvent.enabledStateChange = 2 :=
  C6_toggle_twice initWidget

/-- C7: for every workspace that is not in the EMPTY workbench state,
listFiles issues exactly one resolveAll batch call, whose request list has
one entry per workspace folder, the i-th entry resolving the i-th folder
base location joined with .copilot/instructions, in folder order. -/
theorem C7_single_batch (fs : FileService) (ws : IWorkspaceContextService)
    (h : ws.state ≠ WorkbenchState.EMPTY) :
    (listFiles fs ws).2.length = 1 ∧
    ∀ requests ∈ (listFiles fs ws).2,
      requests.length = ws.workspace.folders.length ∧
      ∀ i : Nat, requests[i]? = (ws.workspace.folders[i]?).map
        (fun folder =>
          ResolveRequest.mk (uriJoinPath folder.uri INSTRUCTIONS_FOLDER_NAME)) := by
  have hlog : (listFiles fs ws).2 =
      [(ws.workspace.folders.map (fun folder =>
        uriJoinPath folder.uri INSTRUCTIONS_FOLDER_NAME)).map
        (fun location => ResolveRequest.mk location)] := by
    simp [listFiles, findInstructionsFiles, getSourceLocations, h]
  rw [hlog]
  refine ⟨rfl, ?_⟩
  intro requests hmem
  rw [List.mem_singleton] at hmem
  subst hmem
  refine ⟨by simp, ?_⟩
  intro i
  rw [List.getElem?_map, List.getElem?_map, Option.map_map]
  rfl

/-- C7 witness: the batch shape evaluated on the concrete two-folder
workspace. -/
theorem C7_single_batch_witness :
    ws2.state ≠ WorkbenchState.EMPTY ∧
    ((listFiles fs0 ws2).2.length = 1 ∧
     ∀ requests ∈ (listFiles fs0 ws2).2,
       requests.length = ws2.workspace.folders.length ∧
       ∀ i : Nat, requests[i]? = (ws2.workspace.folders[i]?).map
         (fun folder =>
           ResolveRequest.mk (uriJoinPath folder.uri INSTRUCTIONS_FOLDER_NAME))) :=
  ⟨by decide, C7_single_batch fs0 ws2 (by decide)⟩

/-- C8: a resolve result that reports failure, or success without a stat or
without a children listing, contributes zero entries while the surrounding
results still contribute theirs in order; concretely, with folders F1 and
F2 where the F1 instructions directory lists a.md and b.txt and the F2
instructions directory fails to resolve, the result is exactly the a.md
resource. -/
theorem C8_skip_failed (rs1 rs2 : List ResolveResult) (r : ResolveResult)
    (h : r.success = false ∨ r.stat = none ∨
      ∀ stat, r.stat = some stat → stat.children = none) :
    collectFiles (rs1 ++ r :: rs2) = collectFiles rs1 ++ collectFiles rs2 ∧
    (listFiles fsC8 ws2).1 = ["file:///F1/.copilot/instructions/a.md"] := by
  constructor
  · simp [collectFiles, filesOfResult_eq_nil r h]
  · decide

/-- C8 fixture: a failed resolve result. -/
def rFail : ResolveResult := ⟨none, false⟩

/-- C8 witness: the skip property evaluated with a concrete successful
result before and nothing after the failed one. -/
theorem C8_skip_failed_witness :
    (rFail.success = false ∨ rFail.stat = none ∨
      ∀ stat, rFail.stat = some stat → stat.children = none) ∧
    (collectFiles ([rC3] ++ rFail :: []) =
       collectFiles [rC3] ++ collectFiles [] ∧
     (listFiles fsC8 ws2).1 = ["file:///F1/.copilot/instructions/a.md"]) :=
  ⟨Or.inl rfl, C8_skip_failed [rC3] [] rFail (Or.inl rfl)⟩

/-- C9: toggle writes only the enabled field (the cached uri, the disposed
flag and hence visible are unchanged), the change-notification handler
never writes enabled or disposed, and among the widget operations only the
handler writes the cached uri (dispose leaves it unchanged as well). -/
theorem C9_frame (w : Widget) (m : ChatAttachmentModel) :
    (toggle w).1.uri = w.uri ∧
    (toggle w).1.disposed = w.disposed ∧
    visible (toggle w).1 = visible w ∧
    (toggle w).1.enabled = !w.enabled ∧
    (onDidChangeContext m w).1.enabled = w.enabled ∧
    (onDidChangeContext m w).1.disposed = w.disposed ∧
    (dispose w).uri = w.uri ∧
    (dispose w).enabled = w.enabled := by
  refine ⟨rfl, rfl, rfl, rfl, ?_, ?_, rfl, rfl⟩ <;>
    cases hw : w.disposed <;> simp [onDidChangeContext, hw]

/-- C9 witness: the frame conditions evaluated on the initial widget and
the attached model. -/
theorem C9_frame_witness :
    (toggle initWidget).1.uri = initWidget.uri ∧
    (toggle initWidget).1.disposed = initWidget.disposed ∧
    visible (toggle initWidget).1 = visible initWidget ∧
    (toggle initWidget).1.enabled = !initWidget.enabled ∧
    (onDidChangeContext mSome initWidget).1.enabled = initWidget.enabled ∧
    (onDidChangeContext mSome initWidget).1.disposed = initWidget.disposed ∧
    (dispose initWidget).uri = initWidget.uri ∧
    (dispose initWidget).enabled = initWidget.enabled :=
  C9_frame initWidget mSome

/-- C10 fixture: a model whose promptInstructions association is set. -/
def mC10 : ChatAttachmentModel :=
  ⟨some ⟨"file:///ws/inst.md", ["file:///ws/ref1.md"]⟩⟩

/-- C10: references is computed from the live model association, not from
the cached uri: on the initial widget state (no change notification
processed yet) paired with a model whose promptInstructions is set,
references is non-empty while visible is false. -/
theorem C10_references_live :
    mC10.promptInstructions.isSome = true ∧
    initWidget.uri = none ∧
    visible initWidget = false ∧
    references mC10 = ["file:///ws/ref1.md", "file:///ws/inst.md"] ∧
    references mC10 ≠ [] :=
  ⟨rfl, rfl, rfl, rfl, by decide⟩

end PromptAttach
